import Mathlib

/-!
Shallow embedding of the shadcn component-issue analyzer
(TypeScript sources: OpenAIService, GitHubService, ReportService,
ShadcnIssueAnalyzer) together with proofs of the specification claims.

JavaScript numbers are modelled as `Rat` (with `Option` where `NaN` can
arise), machine strings as `String`, and the external backends as explicit
oracle parameters.  Concurrency inside one batch chunk is modelled by an
explicit completion schedule: each settled promise writes its result into
the slot of its index, and the merge reads the slots in index order, as
`Promise.allSettled` does.
-/

namespace Shadcn

/-! ### JavaScript helper semantics -/

/-- Numeric value of a list of decimal digit characters. -/
def digitsVal (cs : List Char) : Nat :=
  cs.foldl (fun a c => a * 10 + (c.toNat - 48)) 0

/-- Leading decimal digits of a character list, `none` when there are none. -/
def leadingDigits (cs : List Char) : Option Nat :=
  let ds := cs.takeWhile (·.isDigit)
  if ds.isEmpty then none else some (digitsVal ds)

/-- JS `parseInt(s)` in base 10: skip leading whitespace, optional sign,
then leading digits; `none` models the JS `NaN` result. -/
def jsParseInt (s : String) : Option Int :=
  let cs := s.data.dropWhile (fun c => c == ' ' || c == '\t' || c == '\n' || c == '\r')
  match cs with
  | '-' :: rest => (leadingDigits rest).map (fun n => -(n : Int))
  | '+' :: rest => (leadingDigits rest).map (fun n => (n : Int))
  | _ => (leadingDigits cs).map (fun n => (n : Int))

/-- JS `s.split('/')` on the underlying character list (structural so the
kernel can evaluate it; for a one-character separator this equals the JS
left-to-right split). -/
def splitOnSlash : List Char → List (List Char)
  | [] => [[]]
  | x :: xs =>
    match splitOnSlash xs, x == '/' with
    | r, true => [] :: r
    | [], false => [[x]]
    | seg :: rest, false => (x :: seg) :: rest

/-- JS `url.split('/').pop() || '0'` (the empty string is falsy). -/
def lastUrlSegment (url : String) : String :=
  let seg := (splitOnSlash url.data).getLastD []
  if seg.isEmpty then "0" else String.mk seg

/-- JS `Math.round`: floor of `q + 1/2` (ties go toward positive infinity). -/
def jsRound (q : Rat) : Int :=
  (q + 1 / 2).floor

/-! ### Data model (src/types) -/

/-- `OpenAIIssueAnalysisRequest` from `src/types`. -/
structure OpenAIIssueAnalysisRequest where
  component_name : String
  issue_title : String
  issue_body : String
  issue_labels : List String
  issue_url : String
deriving DecidableEq

/-- `IssueAnalysis` from `src/types`.  `issue_id` is `none` when the JS
value is `NaN` (e.g. `parseInt` of a non-numeric URL segment). -/
structure IssueAnalysis where
  issue_id : Option Int
  is_critical : Bool
  severity_level : String
  reasoning : String
  affected_functionality : List String
  impact_description : String
  confidence_score : Rat
deriving DecidableEq

/-! ### Batch orchestration (`OpenAIService.analyzeIssuesBatch`) -/

/-- Outcome of one settled promise, as reported by `Promise.allSettled`. -/
inductive SettledResult (α : Type) where
  | fulfilled (value : α)
  | rejected (reason : String)
deriving DecidableEq

/-- The fallback analysis pushed by `analyzeIssuesBatch` when a promise of
the chunk rejects (lines 117-125 of the service). -/
def batchFallback (req : OpenAIIssueAnalysisRequest) (reason : String) : IssueAnalysis :=
  { issue_id := jsParseInt (lastUrlSegment req.issue_url)
    is_critical := false
    severity_level := "medium"
    reasoning := "Analysis failed: " ++ reason
    affected_functionality := ["unknown"]
    impact_description := "Unable to determine impact due to analysis failure"
    confidence_score := 0 }

/-- What the `batchResults.forEach` merge does with one settled slot. -/
def settleOne (res : SettledResult IssueAnalysis) (req : OpenAIIssueAnalysisRequest) :
    IssueAnalysis :=
  match res with
  | .fulfilled a => a
  | .rejected reason => batchFallback req reason

/-- The outcome of each promise of a chunk, indexed from global position
`off`; `call` is the oracle giving the settled outcome of the
`analyzeIssue` promise issued for the request at each global index. -/
def settleOutcomes (call : Nat → OpenAIIssueAnalysisRequest → SettledResult IssueAnalysis)
    (off : Nat) : List OpenAIIssueAnalysisRequest → List (SettledResult IssueAnalysis)
  | [] => []
  | r :: rs => call off r :: settleOutcomes call (off + 1) rs

/-- Each promise, as it completes, writes its outcome into the slot of its
index; `order` is the completion order of the promises of the chunk. -/
def settleSlots (outcomes : List (SettledResult IssueAnalysis)) :
    List Nat → List (Option (SettledResult IssueAnalysis)) →
      List (Option (SettledResult IssueAnalysis))
  | [], slots => slots
  | j :: rest, slots => settleSlots outcomes rest (slots.set j outcomes[j]?)

/-- One chunk of at most 5 requests: issue all calls, let them complete in
the order `order`, then merge the settled slots in index order
(`batchResults.forEach`), substituting the fallback for rejections.  A slot
never read back empty once every promise has completed; the `none` branch
is unreachable under the coverage hypothesis of the theorems. -/
def runChunkSched (call : Nat → OpenAIIssueAnalysisRequest → SettledResult IssueAnalysis)
    (off : Nat) (batch : List OpenAIIssueAnalysisRequest) (order : List Nat) :
    List IssueAnalysis :=
  (batch.zip (settleSlots (settleOutcomes call off batch) order
      (List.replicate (settleOutcomes call off batch).length none))).map (fun p =>
    match p.2 with
    | some res => settleOne res p.1
    | none => batchFallback p.1 "pending")

/-- The chunked loop of `analyzeIssuesBatch`: process 5 requests at a time;
`k` numbers the chunk (to pick its completion schedule), `off` is the global
index of the chunk's first request.  The fuel argument makes the recursion
structural; it is initialised to the input length, which bounds the number
of chunks. -/
def batchRun (call : Nat → OpenAIIssueAnalysisRequest → SettledResult IssueAnalysis)
    (orders : Nat → List Nat) :
    Nat → Nat → Nat → List OpenAIIssueAnalysisRequest → List IssueAnalysis
  | 0, _, _, _ => []
  | _ + 1, _, _, [] => []
  | fuel + 1, k, off, reqs =>
    runChunkSched call off (reqs.take 5) (orders k) ++
      batchRun call orders fuel (k + 1) (off + 5) (reqs.drop 5)

/-- `OpenAIService.analyzeIssuesBatch`, parametrised by the oracle `call`
(settled outcome of each issued `analyzeIssue` promise) and by the
completion schedule `orders` of every chunk. -/
def analyzeIssuesBatch (call : Nat → OpenAIIssueAnalysisRequest → SettledResult IssueAnalysis)
    (orders : Nat → List Nat) (reqs : List OpenAIIssueAnalysisRequest) : List IssueAnalysis :=
  batchRun call orders reqs.length 0 0 reqs

/-- Reference sequential semantics: the settled outcome of every request,
in input order. -/
def classifyAt (call : Nat → OpenAIIssueAnalysisRequest → SettledResult IssueAnalysis) :
    Nat → List OpenAIIssueAnalysisRequest → List IssueAnalysis
  | _, [] => []
  | off, r :: rs => settleOne (call off r) r :: classifyAt call (off + 1) rs

/-- Number of chunks of size 5 needed for `n` requests. -/
def numChunks (n : Nat) : Nat := (n + 4) / 5

/-- Length of chunk `k` when `n` requests are processed 5 at a time. -/
def chunkLen (n k : Nat) : Nat := min 5 (n - 5 * k)

/-- Number of inter-chunk `setTimeout` delays the batch loop awaits: one
for every chunk start `i` (a multiple of 5 below the length) with
`i + batchSize < requests.length`. -/
def interChunkDelays (n : Nat) : Nat :=
  (List.range (numChunks n)).countP (fun k => 5 * k + 5 < n)

/-! ### Single-issue classification (`OpenAIService.analyzeIssue`) -/

/-- A JSON value as it can sit in one field of the parsed backend
response.  `strArr` covers arrays of strings (the realistic shape of
`affected_functionality`); `other` stands for any remaining object or
array shape, carrying only its JS template-string rendering; `nan` is the
JS `NaN` (it can arise from `parseInt`, never from `JSON.parse`). -/
inductive JsVal where
  | num (q : Rat)
  | str (s : String)
  | bool (b : Bool)
  | null
  | nan
  | strArr (xs : List String)
  | other (display : String)
deriving DecidableEq

/-- Pad a string with leading zeros up to length `k`. -/
def padLeftZeros (s : String) (k : Nat) : String :=
  if s.length < k then String.mk (List.replicate (k - s.length) '0') ++ s else s

/-- Smallest exponent `k ≤ 10` such that `q * 10^k` is an integer. -/
def decExp (q : Rat) : Option Nat :=
  (List.range 11).find? (fun k => (q * (10 : Rat) ^ k).den = 1)

/-- JS rendering of a number in a template literal: integers print without
a decimal point, finite decimals print their digits.  (The exact shortest
round-trip float formatting is abstracted for rationals that are not
finite decimals; none of the program's values hit that case.) -/
def jsNumToString (q : Rat) : String :=
  match decExp q with
  | some 0 => toString q.num
  | some (k + 1) =>
    let a := (q * (10 : Rat) ^ (k + 1)).num.natAbs
    let p : Nat := 10 ^ (k + 1)
    let s := toString (a / p) ++ "." ++ padLeftZeros (toString (a % p)) (k + 1)
    if q < 0 then "-" ++ s else s
  | none => toString q.num ++ "/" ++ toString q.den

/-- JS template-literal rendering of a value (used by the validation error
messages). -/
def jsDisplay : JsVal → String
  | .num q => jsNumToString q
  | .str s => s
  | .bool b => if b then "true" else "false"
  | .null => "null"
  | .nan => "NaN"
  | .strArr xs => String.intercalate "," xs
  | .other d => d

/-- Property lookup on a parsed JS object; with duplicate keys the last
one wins, as in `JSON.parse`. -/
def jsLookup (fields : List (String × JsVal)) (name : String) : Option JsVal :=
  fields.foldl (fun acc p => if p.1 = name then some p.2 else acc) none

/-- The seven required fields of `validateAnalysis`. -/
def requiredFields : List String :=
  ["issue_id", "is_critical", "severity_level", "reasoning",
    "affected_functionality", "impact_description", "confidence_score"]

/-- The severity check of `validateAnalysis`:
`['low','medium','high','critical'].includes(analysis.severity_level)` —
true exactly for a string value among the four tokens. -/
def severityTokenOk : Option JsVal → Bool
  | some (.str s) => (["low", "medium", "high", "critical"] : List String).contains s
  | _ => false

/-- Template rendering of a possibly absent property (an absent property
reads as `undefined` in JS). -/
def displayOptVal : Option JsVal → String
  | some v => jsDisplay v
  | none => "undefined"

/-- `OpenAIService.validateAnalysis`: throw (here: return `.error`) when a
required field is absent, the severity token is not one of the four
enumerated strings, or the confidence score is not a number in `[0,100]`.
(`JsVal.nan` is grouped with the non-number shapes; `JSON.parse` cannot
produce a `NaN` so the grouping is unobservable on real responses.) -/
def validateAnalysis (fields : List (String × JsVal)) : Except String Unit :=
  if (requiredFields.filter (fun f => (jsLookup fields f).isNone)).length > 0 then
    .error ("Missing required fields in analysis: " ++
      String.intercalate ", " (requiredFields.filter (fun f => (jsLookup fields f).isNone)))
  else if !severityTokenOk (jsLookup fields "severity_level") then
    .error ("Invalid severity_level: " ++ displayOptVal (jsLookup fields "severity_level"))
  else
    match jsLookup fields "confidence_score" with
    | some (.num q) =>
      if q < 0 ∨ q > 100 then
        .error ("Invalid confidence_score: " ++ jsNumToString q)
      else
        .ok ()
    | some v => .error ("Invalid confidence_score: " ++ jsDisplay v)
    | none => .error "Invalid confidence_score: undefined"

/-- How one `analyzeIssue` attempt can conclude before validation. -/
inductive BackendOutcome where
  | transportError (msg : String)
  | emptyContent
  | parseFailure (msg : String)
  | nonObjectContent (msg : String)
  | parsedObject (fields : List (String × JsVal))
deriving DecidableEq

/-- The `issue_id` of the fallback analysis:
`parseInt(request.issue_url.split('/').pop() || '0')`. -/
def fallbackIssueIdVal (url : String) : JsVal :=
  match jsParseInt (lastUrlSegment url) with
  | some n => .num (n : Rat)
  | none => .nan

/-- The fallback analysis object built in the `catch` of `analyzeIssue`
(lines 83-91 of the service). -/
def fallbackAnalysisRaw (request : OpenAIIssueAnalysisRequest) (errMsg : String) :
    List (String × JsVal) :=
  [("issue_id", fallbackIssueIdVal request.issue_url),
    ("is_critical", .bool false),
    ("severity_level", .str "medium"),
    ("reasoning", .str ("Failed to analyze with OpenAI: " ++ errMsg ++
      ". Manual review required.")),
    ("affected_functionality", .strArr ["unknown"]),
    ("impact_description", .str "Unable to determine impact due to analysis failure"),
    ("confidence_score", .num 0)]

/-- `OpenAIService.analyzeIssue`: on a parsed object passing validation the
raw object is returned; every other path (transport error, missing
content, unparseable content, non-object content, validation error) is
caught and replaced by the fallback analysis whose reasoning embeds the
stringified error. -/
def analyzeIssue (outcome : BackendOutcome) (request : OpenAIIssueAnalysisRequest) :
    List (String × JsVal) :=
  match outcome with
  | .parsedObject fields =>
    match validateAnalysis fields with
    | .ok _ => fields
    | .error e => fallbackAnalysisRaw request ("Error: " ++ e)
  | .transportError m => fallbackAnalysisRaw request m
  | .emptyContent => fallbackAnalysisRaw request "Error: No response content from OpenAI"
  | .parseFailure m => fallbackAnalysisRaw request m
  | .nonObjectContent m => fallbackAnalysisRaw request m

/-! ### Data model (src/types, continued) -/

/-- One label of a GitHub issue. -/
structure IssueLabel where
  id : Int
  name : String
  color : String
  description : Option String
deriving DecidableEq

/-- A user reference (author or assignee). -/
structure UserRef where
  login : String
  avatar_url : String
deriving DecidableEq

/-- `GitHubIssue` from `src/types`. -/
structure GitHubIssue where
  id : Int
  number : Int
  title : String
  body : Option String
  state : String
  created_at : String
  updated_at : String
  html_url : String
  user : UserRef
  labels : List IssueLabel
  assignees : List UserRef
  comments : Int
deriving DecidableEq

/-- One element of `ComponentAnalysisReport.issues`. -/
structure AnalysisPair where
  github_issue : GitHubIssue
  analysis : IssueAnalysis
deriving DecidableEq

/-- The `summary` object of the report. -/
structure AnalysisSummary where
  most_critical_issues : List String
  common_problems : List String
  recommended_actions : List String
deriving DecidableEq

/-- `ComponentAnalysisReport` from `src/types`.  The three counters are
`Int` because they are JS numbers (the markdown renderer subtracts them). -/
structure ComponentAnalysisReport where
  component_name : String
  analysis_date : String
  total_issues : Int
  critical_issues : Int
  high_priority_issues : Int
  issues : List AnalysisPair
  summary : AnalysisSummary
deriving DecidableEq

/-! ### Summary rollup (`OpenAIService.generateComponentSummary`) -/

/-- Outcome of the single summary-rollup call: either the parsed JSON of
the completion (returned without validation) or any failure of that call
(transport error, missing content, unparseable content). -/
inductive SummaryOutcome where
  | success (s : AnalysisSummary)
  | failure
deriving DecidableEq

/-- `OpenAIService.generateComponentSummary`: on success the parsed rollup
is returned; on any failure of the single call the catch block builds a
fallback from the titles of the first three critical analyses plus two
fixed message lists (lines 196-200 of the service). -/
def generateComponentSummary (componentName : String) (analyses : List AnalysisPair)
    (outcome : SummaryOutcome) : AnalysisSummary :=
  match outcome with
  | .success s => s
  | .failure =>
    { most_critical_issues :=
        ((analyses.filter (fun a => a.analysis.is_critical
          || a.analysis.severity_level == "critical")).take 3).map
            (fun a => a.github_issue.title)
      common_problems := ["Unable to analyze common problems due to API error"]
      recommended_actions := ["Manual review of issues recommended due to analysis failure"] }

/-! ### Report construction (`ShadcnIssueAnalyzer`) -/

/-- `ShadcnIssueAnalyzer.createReport`; `now` is the value of
`new Date().toISOString()` at construction time. -/
def createReport (component : String) (issues : List GitHubIssue)
    (analyses : List AnalysisPair) (summary : AnalysisSummary) (now : String) :
    ComponentAnalysisReport :=
  { component_name := component
    analysis_date := now
    total_issues := (issues.length : Int)
    critical_issues := ((analyses.filter (fun a => a.analysis.is_critical
      || a.analysis.severity_level == "critical")).length : Int)
    high_priority_issues := ((analyses.filter (fun a => a.analysis.severity_level == "high"
      && !a.analysis.is_critical)).length : Int)
    issues := analyses
    summary := summary }

/-- `ShadcnIssueAnalyzer.createEmptyReport`. -/
def createEmptyReport (component : String) (now : String) : ComponentAnalysisReport :=
  { component_name := component
    analysis_date := now
    total_issues := 0
    critical_issues := 0
    high_priority_issues := 0
    issues := []
    summary :=
      { most_critical_issues := []
        common_problems := []
        recommended_actions :=
          ["No issues found for " ++ component ++ " component - it appears to be stable!"] } }

/-- The per-issue request built by `analyzeIssuesWithOpenAI`
(`issue.body || ''` reads as empty string when the body is null). -/
def toRequest (component : String) (issue : GitHubIssue) : OpenAIIssueAnalysisRequest :=
  { component_name := component
    issue_title := issue.title
    issue_body := issue.body.getD ""
    issue_labels := issue.labels.map (fun l => l.name)
    issue_url := issue.html_url }

/-- `ShadcnIssueAnalyzer.analyzeIssuesWithOpenAI`: build the requests, run
the batch, and pair each issue with the analysis at its index (the batch
result has the input's length, so the zip drops nothing). -/
def analyzeIssuesWithOpenAI (component : String) (issues : List GitHubIssue)
    (call : Nat → OpenAIIssueAnalysisRequest → SettledResult IssueAnalysis)
    (orders : Nat → List Nat) : List AnalysisPair :=
  let requests := issues.map (toRequest component)
  let analyses := analyzeIssuesBatch call orders requests
  (issues.zip analyses).map (fun p => { github_issue := p.1, analysis := p.2 })

/-- `AnalyzeOptions` (the fields the analyzer reads). -/
structure AnalyzeOptions where
  component : String
  maxIssues : Nat := 50
  includeClosedIssues : Bool := false
deriving DecidableEq

/-- The ambient effects of one `analyzeComponent` run: the search result,
the classification oracle with its per-chunk completion schedules, the
summary-rollup outcome, and the clock read at report construction. -/
structure AnalyzerEnv where
  searchOutcome : Except String (List GitHubIssue)
  call : Nat → OpenAIIssueAnalysisRequest → SettledResult IssueAnalysis
  orders : Nat → List Nat
  summaryOutcome : SummaryOutcome
  now : String

/-- `ShadcnIssueAnalyzer.analyzeComponent`: rethrow a search failure,
return the empty report on zero fetched issues, otherwise classify,
summarize and build the report.  (The analyzer's own catch around
`generateComponentSummary` is dead code — that method never throws — so
the summary is the service's result directly.) -/
def analyzeComponent (env : AnalyzerEnv) (options : AnalyzeOptions) :
    Except String ComponentAnalysisReport :=
  match env.searchOutcome with
  | .error e => .error e
  | .ok issues =>
    if issues.length = 0 then
      .ok (createEmptyReport options.component env.now)
    else
      let analyses := analyzeIssuesWithOpenAI options.component issues env.call env.orders
      let summary := generateComponentSummary options.component analyses env.summaryOutcome
      .ok (createReport options.component issues analyses summary env.now)

/-- Result record of `getAnalysisStats`. -/
structure AnalysisStats where
  criticalPercentage : Rat
  highPriorityPercentage : Rat
  avgConfidence : Rat
deriving DecidableEq

/-- `ShadcnIssueAnalyzer.getAnalysisStats`: early return of all zeros when
`total_issues === 0`, otherwise percentages and average confidence rounded
to one decimal via `Math.round(x * 10) / 10`. -/
def getAnalysisStats (report : ComponentAnalysisReport) : AnalysisStats :=
  if report.total_issues = 0 then
    { criticalPercentage := 0, highPriorityPercentage := 0, avgConfidence := 0 }
  else
    { criticalPercentage :=
        ((jsRound ((report.critical_issues : Rat) / (report.total_issues : Rat) * 100 * 10) : Rat)) / 10
      highPriorityPercentage :=
        ((jsRound ((report.high_priority_issues : Rat) / (report.total_issues : Rat) * 100 * 10) : Rat)) / 10
      avgConfidence :=
        ((jsRound ((report.issues.foldl (fun sum item => sum + item.analysis.confidence_score) 0)
          / (report.total_issues : Rat) * 10) : Rat)) / 10 }

/-! ### Issue search (`GitHubService.searchComponentIssues`) -/

/-- The options record of `searchComponentIssues`. -/
structure SearchOptions where
  maxIssues : Nat := 100
  includeClosedIssues : Bool := false
  state : Option String := none
deriving DecidableEq

/-- `options.state || (includeClosedIssues ? 'all' : 'open')`. -/
def stateFor (options : SearchOptions) : String :=
  options.state.getD (if options.includeClosedIssues then "all" else "open")

/-- The search queries the method actually issues.  The call to
`buildSearchQueries(componentName, state)` is commented out in the source;
the active literal hard-codes `state:open` and ignores `state`. -/
def searchQueriesUsed (componentName : String) (state : String) : List String :=
  ["repo:shadcn-ui/ui is:issue state:open " ++ componentName]

/-- An item of the search response (`pull_request` records whether the
item carries the PR-indicator field). -/
structure RawSearchItem where
  id : Int
  number : Int
  title : String
  body : Option String
  state : String
  created_at : String
  updated_at : String
  html_url : String
  user : UserRef
  labels : List IssueLabel
  assignees : List UserRef
  comments : Int
  pull_request : Bool
deriving DecidableEq

/-- `GitHubService.transformIssue`. -/
def transformIssue (item : RawSearchItem) : GitHubIssue :=
  { id := item.id
    number := item.number
    title := item.title
    body := item.body
    state := item.state
    created_at := item.created_at
    updated_at := item.updated_at
    html_url := item.html_url
    user := item.user
    labels := item.labels
    assignees := item.assignees
    comments := item.comments }

/-- The query loop of `searchComponentIssues`: for each query, keep the
response items that are not pull requests and whose number is not yet in
`seen` (the filter runs to completion before the map records the numbers,
so duplicates inside one response all pass), append the transforms, and
stop once at least `maxIssues` are collected. -/
def searchLoop (responses : String → List RawSearchItem) (maxIssues : Nat) :
    List String → List Int → List GitHubIssue → List GitHubIssue
  | [], _, acc => acc
  | q :: rest, seen, acc =>
    let pass := (responses q).filter (fun it => !it.pull_request && !seen.contains it.number)
    let acc2 := acc ++ pass.map transformIssue
    if maxIssues ≤ acc2.length then acc2
    else searchLoop responses maxIssues rest (seen ++ pass.map (fun it => it.number)) acc2

/-- `GitHubService.searchComponentIssues`, parametrised by the backend
`responses` (the item list the search endpoint returns for a query). -/
def searchComponentIssues (responses : String → List RawSearchItem)
    (componentName : String) (options : SearchOptions) : List GitHubIssue :=
  (searchLoop responses options.maxIssues
    (searchQueriesUsed componentName (stateFor options)) [] []).take options.maxIssues

/-! ### Rendering (`ReportService`) -/

/-- The ambient effects available to the report renderers: the current
clock (`now`, what a `new Date()` call with no argument would read) and
the two date formatters applied to a stored ISO date string
(`new Date(s).toLocaleDateString()` and `new Date(s).toISOString()`). -/
structure RenderEnv where
  now : String
  localeDate : String → String
  isoDate : String → String

/-- JS `x.toFixed(1)` for a finite number: round `x*10` to the nearer
integer, larger on ties, and print one decimal digit. -/
def jsToFixed1 (q : Rat) : String :=
  let n := jsRound (q * 10)
  let a := n.natAbs
  let s := toString (a / 10) ++ "." ++ toString (a % 10)
  if n < 0 then "-" ++ s else s

/-- One bullet line per element. -/
def bulletLines (xs : List String) : String :=
  String.join (xs.map (fun x => "- " ++ x ++ "\n"))

/-- Model of `ReportService.getConfidenceDistribution`: the four counters
in insertion order (the if/else-if chain buckets each score once). -/
def getConfidenceDistribution (issues : List AnalysisPair) : List (String × Nat) :=
  [("High (80-100%)",
      (issues.filter (fun item => decide (80 ≤ item.analysis.confidence_score))).length),
    ("Medium (60-79%)",
      (issues.filter (fun item => decide (60 ≤ item.analysis.confidence_score
        ∧ item.analysis.confidence_score < 80))).length),
    ("Low (40-59%)",
      (issues.filter (fun item => decide (40 ≤ item.analysis.confidence_score
        ∧ item.analysis.confidence_score < 60))).length),
    ("Very Low (0-39%)",
      (issues.filter (fun item => decide (item.analysis.confidence_score < 40))).length)]

/-- Model of `ReportService.formatIssueSection`; `localeDate` is the
`new Date(s).toLocaleDateString()` formatter handed down by the caller
(the only date source this helper touches). -/
def formatIssueSection (localeDate : String → String) (issue : GitHubIssue)
    (analysis : IssueAnalysis) (index : Nat) (emoji : String) (compact : Bool) : String :=
  (if compact then
    "### " ++ emoji ++ " " ++ toString index ++ ". [" ++ issue.title ++ "](" ++
      issue.html_url ++ ")\n\n"
    ++ "**Severity:** " ++ analysis.severity_level.toUpper ++ " | **Confidence:** " ++
      jsNumToString analysis.confidence_score ++ "%\n\n"
    ++ analysis.reasoning ++ "\n\n"
  else
    "### " ++ emoji ++ " " ++ toString index ++ ". [" ++ issue.title ++ "](" ++
      issue.html_url ++ ")\n\n"
    ++ "**Issue #" ++ toString issue.number ++ "** | **Severity:** " ++
      analysis.severity_level.toUpper ++ " | **Confidence:** " ++
      jsNumToString analysis.confidence_score ++ "%\n\n"
    ++ (if issue.labels.length > 0 then
        "**Labels:** " ++
          String.intercalate ", " (issue.labels.map (fun l => "`" ++ l.name ++ "`")) ++ "\n\n"
      else "")
    ++ "**Why this is " ++ analysis.severity_level ++ " priority:**\n"
    ++ analysis.reasoning ++ "\n\n"
    ++ (if analysis.affected_functionality.length > 0 then
        "**Affected Functionality:**\n" ++ bulletLines analysis.affected_functionality ++ "\n"
      else "")
    ++ "**Impact:** " ++ analysis.impact_description ++ "\n\n"
    ++ "**Created:** " ++ localeDate issue.created_at ++ "\n"
    ++ "**Updated:** " ++ localeDate issue.updated_at ++ "\n"
    ++ "**Comments:** " ++ toString issue.comments ++ "\n"
    ++ "**State:** " ++ issue.state ++ "\n\n")
  ++ "---\n\n"

/-- The `forEach` over a severity tier: one formatted section per pair,
numbered from `index`. -/
def issueSections (localeDate : String → String) (emoji : String) (compact : Bool) :
    Nat → List AnalysisPair → String
  | _, [] => ""
  | i, p :: ps =>
    formatIssueSection localeDate p.github_issue p.analysis i emoji compact
      ++ issueSections localeDate emoji compact (i + 1) ps

/-- Model of `ReportService.generateMarkdownReport`: a pure fold over the
report fields; the only dates rendered come from `report.analysis_date`
through the two formatters (never from `env.now`). -/
def generateMarkdownReport (env : RenderEnv) (report : ComponentAnalysisReport) : String :=
  let criticalIssues := report.issues.filter (fun item =>
    item.analysis.is_critical || item.analysis.severity_level == "critical")
  let highPriorityIssues := report.issues.filter (fun item =>
    item.analysis.severity_level == "high" && !item.analysis.is_critical)
  let mediumPriorityIssues := report.issues.filter (fun item =>
    item.analysis.severity_level == "medium")
  let lowPriorityIssues := report.issues.filter (fun item =>
    item.analysis.severity_level == "low")
  "# " ++ report.component_name ++ " Component Analysis Report\n\n"
  ++ "**Generated on:** " ++ env.localeDate report.analysis_date ++ "\n\n"
  ++ "## 📊 Summary\n\n"
  ++ "- **Total Issues Analyzed:** " ++ toString report.total_issues ++ "\n"
  ++ "- **Critical Issues:** " ++ toString report.critical_issues ++ " 🔴\n"
  ++ "- **High Priority Issues:** " ++ toString report.high_priority_issues ++ " 🟠\n"
  ++ "- **Medium/Low Priority Issues:** " ++
    toString (report.total_issues - report.critical_issues - report.high_priority_issues) ++
    " 🟡\n\n"
  ++ (if report.critical_issues > 0 then
      "## 🚨 Critical Issues\n\n"
      ++ "These issues prevent basic component usage or cause severe problems:\n\n"
      ++ issueSections env.localeDate "🔴" false 1 criticalIssues
    else "")
  ++ (if highPriorityIssues.length > 0 then
      "## ⚠️ High Priority Issues\n\n"
      ++ "These issues significantly impact functionality but don\x27t prevent basic usage:\n\n"
      ++ issueSections env.localeDate "🟠" false 1 highPriorityIssues
    else "")
  ++ (if mediumPriorityIssues.length > 0 then
      "## 📋 Medium Priority Issues\n\n"
      ++ "<details>\n<summary>Click to expand medium priority issues (" ++
        toString mediumPriorityIssues.length ++ " issues)</summary>\n\n"
      ++ issueSections env.localeDate "🟡" true 1 mediumPriorityIssues
      ++ "</details>\n\n"
    else "")
  ++ (if lowPriorityIssues.length > 0 then
      "## 📝 Low Priority Issues\n\n"
      ++ "<details>\n<summary>Click to expand low priority issues (" ++
        toString lowPriorityIssues.length ++ " issues)</summary>\n\n"
      ++ issueSections env.localeDate "🟢" true 1 lowPriorityIssues
      ++ "</details>\n\n"
    else "")
  ++ "## 🔍 Analysis Summary\n\n"
  ++ (if report.summary.most_critical_issues.length > 0 then
      "### Most Critical Issues\n" ++ bulletLines report.summary.most_critical_issues ++ "\n"
    else "")
  ++ (if report.summary.common_problems.length > 0 then
      "### Common Problems Identified\n" ++ bulletLines report.summary.common_problems ++ "\n"
    else "")
  ++ (if report.summary.recommended_actions.length > 0 then
      "### Recommended Actions\n" ++ bulletLines report.summary.recommended_actions ++ "\n"
    else "")
  ++ "## 📈 Analysis Confidence\n\n"
  ++ "**Average Confidence Score:** "
  ++ (if report.issues.isEmpty then "NaN"
      else jsToFixed1 ((report.issues.foldl
        (fun sum item => sum + item.analysis.confidence_score) 0) /
        (report.issues.length : Rat)))
  ++ "%\n\n"
  ++ "**Confidence Distribution:**\n"
  ++ String.join ((getConfidenceDistribution report.issues).map (fun p =>
      "- " ++ p.1 ++ ": " ++ toString p.2 ++ " issues\n"))
  ++ "\n"
  ++ "---\n\n"
  ++ "*This report was generated automatically using GitHub API and OpenAI analysis.*\n"
  ++ "*Last updated: " ++ env.isoDate report.analysis_date ++ "*\n"

/-- Two spaces of indentation per depth level, as
`JSON.stringify(report, null, 2)` emits. -/
def jsonIndent (d : Nat) : String :=
  String.mk (List.replicate (2 * d) ' ')

/-- JSON string escaping for the characters the report can carry (quote,
backslash, newline, carriage return, tab; other control characters do not
occur in the modelled strings). -/
def jsonEscape (s : String) : String :=
  s.data.foldl (fun acc c =>
    acc ++ (if c = '"' then "\\\""
      else if c = '\\' then "\\\\"
      else if c = '\n' then "\\n"
      else if c = '\r' then "\\r"
      else if c = '\t' then "\\t"
      else String.mk [c])) ""

/-- A JSON string literal. -/
def jsonStr (s : String) : String :=
  "\"" ++ jsonEscape s ++ "\""

/-- A JSON object with pre-rendered field values at depth `d`. -/
def jsonObj (d : Nat) (fields : List (String × String)) : String :=
  if fields.isEmpty then "\x7b\x7d"
  else
    "\x7b\n" ++
    String.intercalate ",\n"
      (fields.map (fun p => jsonIndent (d + 1) ++ jsonStr p.1 ++ ": " ++ p.2)) ++
    "\n" ++ jsonIndent d ++ "\x7d"

/-- A JSON array with pre-rendered items at depth `d`. -/
def jsonArr (d : Nat) (items : List String) : String :=
  if items.isEmpty then "[]"
  else
    "[\n" ++
    String.intercalate ",\n" (items.map (fun s => jsonIndent (d + 1) ++ s)) ++
    "\n" ++ jsonIndent d ++ "]"

/-- A nullable string field. -/
def jsonOptStr : Option String → String
  | some s => jsonStr s
  | none => "null"

/-- A nullable integer field (`JSON.stringify` turns `NaN` into `null`). -/
def jsonOptInt : Option Int → String
  | some n => toString n
  | none => "null"

/-- A JSON boolean. -/
def jsonBool (b : Bool) : String :=
  if b then "true" else "false"

/-- Serialization of one label. -/
def labelJson (d : Nat) (l : IssueLabel) : String :=
  jsonObj d [("id", toString l.id), ("name", jsonStr l.name), ("color", jsonStr l.color),
    ("description", jsonOptStr l.description)]

/-- Serialization of one user reference. -/
def userJson (d : Nat) (u : UserRef) : String :=
  jsonObj d [("login", jsonStr u.login), ("avatar_url", jsonStr u.avatar_url)]

/-- Serialization of one GitHub issue, keys in `transformIssue` order. -/
def issueJson (d : Nat) (i : GitHubIssue) : String :=
  jsonObj d [("id", toString i.id), ("number", toString i.number),
    ("title", jsonStr i.title), ("body", jsonOptStr i.body), ("state", jsonStr i.state),
    ("created_at", jsonStr i.created_at), ("updated_at", jsonStr i.updated_at),
    ("html_url", jsonStr i.html_url), ("user", userJson (d + 1) i.user),
    ("labels", jsonArr (d + 1) (i.labels.map (labelJson (d + 2)))),
    ("assignees", jsonArr (d + 1) (i.assignees.map (userJson (d + 2)))),
    ("comments", toString i.comments)]

/-- Serialization of one analysis, keys in interface order (the runtime
object's key order is whatever the backend returned; for the report as a
data value the serialization is a pure function either way). -/
def analysisJson (d : Nat) (a : IssueAnalysis) : String :=
  jsonObj d [("issue_id", jsonOptInt a.issue_id), ("is_critical", jsonBool a.is_critical),
    ("severity_level", jsonStr a.severity_level), ("reasoning", jsonStr a.reasoning),
    ("affected_functionality", jsonArr (d + 1) (a.affected_functionality.map jsonStr)),
    ("impact_description", jsonStr a.impact_description),
    ("confidence_score", jsNumToString a.confidence_score)]

/-- Serialization of one paired result. -/
def pairJson (d : Nat) (p : AnalysisPair) : String :=
  jsonObj d [("github_issue", issueJson (d + 1) p.github_issue),
    ("analysis", analysisJson (d + 1) p.analysis)]

/-- Serialization of the summary object. -/
def summaryJson (d : Nat) (s : AnalysisSummary) : String :=
  jsonObj d [("most_critical_issues", jsonArr (d + 1) (s.most_critical_issues.map jsonStr)),
    ("common_problems", jsonArr (d + 1) (s.common_problems.map jsonStr)),
    ("recommended_actions", jsonArr (d + 1) (s.recommended_actions.map jsonStr))]

/-- The bytes `ReportService.saveJsonReport` writes:
`JSON.stringify(report, null, 2)` over the report's fields in construction
order.  The render environment is in scope (a clock read would have to go
through it) and is not consulted. -/
def saveJsonReportContent (env : RenderEnv) (report : ComponentAnalysisReport) : String :=
  jsonObj 0 [("component_name", jsonStr report.component_name),
    ("analysis_date", jsonStr report.analysis_date),
    ("total_issues", toString report.total_issues),
    ("critical_issues", toString report.critical_issues),
    ("high_priority_issues", toString report.high_priority_issues),
    ("issues", jsonArr 1 (report.issues.map (pairJson 2))),
    ("summary", summaryJson 1 report.summary)]

/-! ### Sample data for concrete checks -/

/-- A concrete classification request (sample data for concrete checks). -/
def sampleReq (i : Nat) : OpenAIIssueAnalysisRequest :=
  { component_name := "button"
    issue_title := "issue " ++ toString i
    issue_body := ""
    issue_labels := ["bug"]
    issue_url := "https://github.com/shadcn-ui/ui/issues/" ++ toString (100 + i) }

/-- A concrete successful backend analysis (sample data). -/
def sampleAnalysis (i : Nat) : IssueAnalysis :=
  { issue_id := some (100 + (i : Int))
    is_critical := false
    severity_level := "low"
    reasoning := "cosmetic only"
    affected_functionality := []
    impact_description := "minimal"
    confidence_score := 90 }

/-- Oracle for the failure-isolation scenario: the call at position 2
(request #3) rejects, every other call fulfills. -/
def failThirdCall : Nat → OpenAIIssueAnalysisRequest → SettledResult IssueAnalysis :=
  fun i _ => if i = 2 then .rejected "API connection failed" else .fulfilled (sampleAnalysis i)

/-- Oracle for the order-preservation witness: the call at position 5
rejects, the rest fulfill. -/
def witnessCall : Nat → OpenAIIssueAnalysisRequest → SettledResult IssueAnalysis :=
  fun i _ => if i = 5 then .rejected "rate limited" else .fulfilled (sampleAnalysis i)

/-- Completion schedule for the order-preservation witness: both chunks
complete out of index order. -/
def witnessOrders : Nat → List Nat :=
  fun k => if k = 0 then [4, 0, 2, 1, 3] else [1, 0]

/-- Seven concrete requests (two chunks: 5 + 2). -/
def witnessReqs : List OpenAIIssueAnalysisRequest :=
  [sampleReq 0, sampleReq 1, sampleReq 2, sampleReq 3, sampleReq 4, sampleReq 5, sampleReq 6]

/-- A concrete GitHub issue (sample data). -/
def sampleIssue (n : Nat) : GitHubIssue :=
  { id := (1000 + n : Int)
    number := (n : Int)
    title := "Dialog crashes on open " ++ toString n
    body := some "Steps to reproduce"
    state := "open"
    created_at := "2024-01-15T00:00:00Z"
    updated_at := "2024-02-01T00:00:00Z"
    html_url := "https://github.com/shadcn-ui/ui/issues/" ++ toString n
    user := { login := "alice", avatar_url := "https://example.com/alice.png" }
    labels := [{ id := 1, name := "bug", color := "ff0000", description := none }]
    assignees := []
    comments := 2 }

/-- A concrete paired result whose analysis is critical (sample data). -/
def criticalDemoPair : AnalysisPair :=
  { github_issue := sampleIssue 7
    analysis :=
      { issue_id := some 7
        is_critical := true
        severity_level := "critical"
        reasoning := "component never renders"
        affected_functionality := ["rendering"]
        impact_description := "total breakage"
        confidence_score := 95 } }

/-- A concrete paired result whose analysis is high priority (sample data). -/
def highDemoPair : AnalysisPair :=
  { github_issue := sampleIssue 8
    analysis :=
      { issue_id := some 8
        is_critical := false
        severity_level := "high"
        reasoning := "focus handling broken"
        affected_functionality := ["focus"]
        impact_description := "degraded usability"
        confidence_score := 80 } }

/-- A concrete report with two issues, one critical and one high. -/
def statsDemoReport : ComponentAnalysisReport :=
  { component_name := "button"
    analysis_date := "2024-05-01T12:00:00.000Z"
    total_issues := 2
    critical_issues := 1
    high_priority_issues := 1
    issues := [criticalDemoPair, highDemoPair]
    summary :=
      { most_critical_issues := ["Dialog crashes on open 7"]
        common_problems := ["rendering bugs"]
        recommended_actions := ["pin the library version"] } }

/-- A concrete environment whose issue search returns zero issues. -/
def zeroIssueEnv : AnalyzerEnv :=
  { searchOutcome := .ok []
    call := witnessCall
    orders := witnessOrders
    summaryOutcome := .failure
    now := "2024-05-01T12:00:00.000Z" }

/-- A search-response item duplicated under one number (sample data). -/
def dupItem (n : Nat) : RawSearchItem :=
  { id := (n : Int)
    number := 7
    title := "duplicate record " ++ toString n
    body := none
    state := "open"
    created_at := "2024-01-15T00:00:00Z"
    updated_at := "2024-02-01T00:00:00Z"
    html_url := "https://github.com/shadcn-ui/ui/issues/7"
    user := { login := "bob", avatar_url := "https://example.com/bob.png" }
    labels := []
    assignees := []
    comments := 0
    pull_request := false }

/-- A backend whose single page contains the same issue number twice. -/
def dupResponses : String → List RawSearchItem :=
  fun _ => [dupItem 1, dupItem 2]

/-- A distinct-numbered search-response item; number `2` is flagged as a
pull request. -/
def cleanItem (n : Nat) : RawSearchItem :=
  { id := (n : Int)
    number := (n : Int)
    title := "record " ++ toString n
    body := some "body"
    state := "open"
    created_at := "2024-01-15T00:00:00Z"
    updated_at := "2024-02-01T00:00:00Z"
    html_url := "https://github.com/shadcn-ui/ui/issues/" ++ toString n
    user := { login := "carol", avatar_url := "https://example.com/carol.png" }
    labels := []
    assignees := []
    comments := 1
    pull_request := n == 2 }

/-- A backend page with three distinct numbers, one of them a PR. -/
def cleanResponses : String → List RawSearchItem :=
  fun _ => [cleanItem 1, cleanItem 2, cleanItem 3]

/-- A concrete render environment (identity date formatters). -/
def renderEnvA : RenderEnv :=
  { now := "2024-05-01T12:00:00.000Z"
    localeDate := fun s => s
    isoDate := fun s => s }

/-- The same formatters under a different clock. -/
def renderEnvB : RenderEnv :=
  { now := "2099-12-31T23:59:59.000Z"
    localeDate := fun s => s
    isoDate := fun s => s }

/-! ### Supporting lemmas for the batch theorems -/

theorem settleSlots_length (outcomes : List (SettledResult IssueAnalysis)) :
    ∀ (order : List Nat) slots, (settleSlots outcomes order slots).length = slots.length := by
  intro order
  induction order with
  | nil => intro slots; rfl
  | cons j rest ih =>
    intro slots
    simp only [settleSlots, ih, List.length_set]

theorem settleSlots_getElem? (outcomes : List (SettledResult IssueAnalysis)) :
    ∀ (order : List Nat) slots j, j < slots.length →
      (settleSlots outcomes order slots)[j]? =
        if j ∈ order then some outcomes[j]? else slots[j]? := by
  intro order
  induction order with
  | nil => intro slots j _; simp [settleSlots]
  | cons i rest ih =>
    intro slots j hj
    by_cases hmem : j ∈ rest
    · simp only [settleSlots]
      rw [ih _ j (by simpa using hj)]
      simp [hmem, List.mem_cons]
    · by_cases hij : j = i
      · subst hij
        simp only [settleSlots]
        rw [ih _ j (by simpa using hj)]
        simp only [hmem, if_false]
        rw [List.getElem?_set_eq_of_lt _ hj]
        simp [List.mem_cons]
      · simp only [settleSlots]
        rw [ih _ j (by simpa using hj)]
        simp only [hmem, if_false]
        rw [List.getElem?_set_ne (by omega)]
        simp [List.mem_cons, hij, hmem]

/-- Once every index of the chunk has completed, the slot array holds every
outcome at the slot of its index, whatever the completion order was. -/
theorem settleSlots_full (outcomes : List (SettledResult IssueAnalysis)) (order : List Nat)
    (hcov : ∀ j, j < outcomes.length → j ∈ order) :
    settleSlots outcomes order (List.replicate outcomes.length none) = outcomes.map some := by
  apply List.ext_getElem?
  intro j
  by_cases hj : j < outcomes.length
  · rw [settleSlots_getElem? outcomes order _ j (by simpa using hj)]
    simp [hcov j hj, List.getElem?_eq_getElem hj]
  · have h1 : (settleSlots outcomes order (List.replicate outcomes.length none)).length ≤ j := by
      rw [settleSlots_length, List.length_replicate]; omega
    rw [List.getElem?_eq_none h1, List.getElem?_eq_none (by simpa using Nat.le_of_not_lt hj)]

theorem settleOutcomes_length (call : Nat → OpenAIIssueAnalysisRequest → SettledResult IssueAnalysis) :
    ∀ off batch, (settleOutcomes call off batch).length = batch.length := by
  intro off batch
  induction batch generalizing off with
  | nil => rfl
  | cons r rs ih => simp [settleOutcomes, ih]

theorem settleOutcomes_getElem? (call : Nat → OpenAIIssueAnalysisRequest → SettledResult IssueAnalysis) :
    ∀ off batch j (h : j < batch.length),
      (settleOutcomes call off batch)[j]? = some (call (off + j) batch[j]) := by
  intro off batch
  induction batch generalizing off with
  | nil => intro j h; simp at h
  | cons r rs ih =>
    intro j h
    cases j with
    | zero => simp [settleOutcomes]
    | succ j =>
      have hj : j < rs.length := by simpa using h
      simp only [settleOutcomes, List.getElem?_cons_succ, List.getElem_cons_succ]
      rw [ih (off + 1) j hj]
      congr 2
      omega

/-- Merging the batch with its fully settled slot list, in index order, is
the sequential classification of the batch. -/
theorem zip_settled_merge
    (call : Nat → OpenAIIssueAnalysisRequest → SettledResult IssueAnalysis) :
    ∀ (batch : List OpenAIIssueAnalysisRequest) (off : Nat),
      ((batch.zip ((settleOutcomes call off batch).map some)).map (fun p =>
        match p.2 with
        | some res => settleOne res p.1
        | none => batchFallback p.1 "pending")) = classifyAt call off batch := by
  intro batch
  induction batch with
  | nil => intro off; rfl
  | cons r rs ih =>
    intro off
    simp only [settleOutcomes, List.map_cons, List.zip_cons_cons, classifyAt]
    rw [ih (off + 1)]

/-- Under full completion of the chunk, the order-scheduled chunk equals
the sequential classification of the chunk. -/
theorem runChunkSched_eq_classifyAt
    (call : Nat → OpenAIIssueAnalysisRequest → SettledResult IssueAnalysis)
    (off : Nat) (batch : List OpenAIIssueAnalysisRequest) (order : List Nat)
    (hcov : ∀ j, j < batch.length → j ∈ order) :
    runChunkSched call off batch order = classifyAt call off batch := by
  have hlenO : (settleOutcomes call off batch).length = batch.length :=
    settleOutcomes_length call off batch
  have hfull :
      settleSlots (settleOutcomes call off batch) order
        (List.replicate (settleOutcomes call off batch).length none) =
      (settleOutcomes call off batch).map some :=
    settleSlots_full _ order (fun j hj => hcov j (hlenO ▸ hj))
  unfold runChunkSched
  rw [hfull]
  exact zip_settled_merge call batch off

theorem classifyAt_length
    (call : Nat → OpenAIIssueAnalysisRequest → SettledResult IssueAnalysis) :
    ∀ (reqs : List OpenAIIssueAnalysisRequest) (off : Nat),
      (classifyAt call off reqs).length = reqs.length := by
  intro reqs
  induction reqs with
  | nil => intro off; rfl
  | cons r rs ih => intro off; simp [classifyAt, ih]

theorem classifyAt_getElem?
    (call : Nat → OpenAIIssueAnalysisRequest → SettledResult IssueAnalysis) :
    ∀ (reqs : List OpenAIIssueAnalysisRequest) (off i : Nat) (h : i < reqs.length),
      (classifyAt call off reqs)[i]? = some (settleOne (call (off + i) reqs[i]) reqs[i]) := by
  intro reqs
  induction reqs with
  | nil => intro off i h; simp at h
  | cons r rs ih =>
    intro off i h
    cases i with
    | zero => simp [classifyAt]
    | succ i =>
      have hi : i < rs.length := by simpa using h
      simp only [classifyAt, List.getElem?_cons_succ, List.getElem_cons_succ]
      rw [ih (off + 1) i hi]
      congr 3
      omega

theorem classifyAt_append
    (call : Nat → OpenAIIssueAnalysisRequest → SettledResult IssueAnalysis) :
    ∀ (l1 l2 : List OpenAIIssueAnalysisRequest) (off : Nat),
      classifyAt call off (l1 ++ l2) =
        classifyAt call off l1 ++ classifyAt call (off + l1.length) l2 := by
  intro l1
  induction l1 with
  | nil => intro l2 off; simp [classifyAt]
  | cons r rs ih =>
    intro l2 off
    have harith : off + 1 + rs.length = off + (rs.length + 1) := by omega
    simp only [List.cons_append, classifyAt, List.length_cons]
    rw [show rs.append l2 = rs ++ l2 from rfl, ih, harith]

/-- The chunked, scheduled loop computes the sequential classification,
provided every chunk's completion schedule eventually covers the chunk. -/
theorem batchRun_eq_classifyAt
    (call : Nat → OpenAIIssueAnalysisRequest → SettledResult IssueAnalysis)
    (orders : Nat → List Nat) :
    ∀ (fuel k off : Nat) (reqs : List OpenAIIssueAnalysisRequest),
      reqs.length ≤ fuel →
      (∀ d j, j < chunkLen reqs.length d → j ∈ orders (k + d)) →
      batchRun call orders fuel k off reqs = classifyAt call off reqs := by
  intro fuel
  induction fuel with
  | zero =>
    intro k off reqs hle _
    have : reqs = [] := List.eq_nil_of_length_eq_zero (Nat.le_zero.mp hle)
    subst this
    rfl
  | succ fuel ih =>
    intro k off reqs hle hcov
    match reqs with
    | [] => rfl
    | r :: rs =>
      show runChunkSched call off ((r :: rs).take 5) (orders k) ++
          batchRun call orders fuel (k + 1) (off + 5) ((r :: rs).drop 5) = _
      have hcov0 : ∀ j, j < ((r :: rs).take 5).length → j ∈ orders k := by
        intro j hj
        rw [List.length_take] at hj
        exact hcov 0 j (by simp only [chunkLen]; omega)
      have hchunk := runChunkSched_eq_classifyAt call off ((r :: rs).take 5) (orders k) hcov0
      have hdroplen : ((r :: rs).drop 5).length = (r :: rs).length - 5 := by
        simp [List.length_drop]
      have hrest : batchRun call orders fuel (k + 1) (off + 5) ((r :: rs).drop 5) =
          classifyAt call (off + 5) ((r :: rs).drop 5) := by
        apply ih
        · simp only [List.length_drop, List.length_cons] at *
          omega
        · intro d j hj
          have hk : k + 1 + d = k + (d + 1) := by omega
          rw [hk]
          apply hcov (d + 1) j
          simp only [chunkLen, hdroplen] at *
          omega
      rw [hchunk, hrest]
      by_cases hlen : (r :: rs).length ≤ 5
      · have hdrop : (r :: rs).drop 5 = [] := List.drop_eq_nil_of_le hlen
        have htake5 : (r :: rs).take 5 = r :: rs := List.take_of_length_le hlen
        rw [hdrop, htake5]
        simp [classifyAt]
      · have h5 : ((r :: rs).take 5).length = 5 := by
          rw [List.length_take]
          simp only [List.length_cons] at hlen ⊢
          omega
        have hsplit : (r :: rs).take 5 ++ (r :: rs).drop 5 = r :: rs := List.take_append_drop 5 _
        conv_rhs => rw [← hsplit, classifyAt_append call _ _ off, h5]

/-- Closed form for the number of inter-chunk delays. -/
theorem interChunkDelays_closed (n : Nat) :
    interChunkDelays n = numChunks n - 1 := by
  have key : ∀ m : Nat, (List.range m).countP (fun k => 5 * k + 5 < n) =
      min m ((n + 4) / 5 - 1) := by
    intro m
    induction m with
    | zero => simp
    | succ m ih =>
      rw [List.range_succ, List.countP_append, ih]
      simp only [List.countP_cons, List.countP_nil, Nat.zero_add]
      by_cases h : 5 * m + 5 < n
      · have hd : decide (5 * m + 5 < n) = true := decide_eq_true h
        rw [hd]
        simp only [if_true]
        omega
      · have hd : decide (5 * m + 5 < n) = false := decide_eq_false h
        rw [hd]
        simp only [Bool.false_eq_true, if_false]
        omega
  unfold interChunkDelays numChunks
  rw [key]
  omega

/-! ### Claim C1 -/

/-- C1: for every ordered input sequence of classification requests,
`analyzeIssuesBatch` returns a result sequence of exactly the same length,
and for every index `i` the result at position `i` is the settled
classification of the request at position `i`, regardless of the
completion order of the concurrent calls within a chunk (any schedule that
eventually completes every call of every size-5 chunk); the number of
inter-chunk pacing delays is the number of chunks minus one. -/
theorem analyzeIssuesBatch_preserves_length_and_order
    (call : Nat → OpenAIIssueAnalysisRequest → SettledResult IssueAnalysis)
    (orders : Nat → List Nat) (reqs : List OpenAIIssueAnalysisRequest)
    (hcov : ∀ k < numChunks reqs.length, ∀ j < chunkLen reqs.length k, j ∈ orders k) :
    (analyzeIssuesBatch call orders reqs).length = reqs.length ∧
    (∀ i (h : i < reqs.length),
      (analyzeIssuesBatch call orders reqs)[i]? =
        some (settleOne (call i reqs[i]) reqs[i])) ∧
    interChunkDelays reqs.length = numChunks reqs.length - 1 := by
  have hcov' : ∀ d j, j < chunkLen reqs.length d → j ∈ orders (0 + d) := by
    intro d j hj
    rw [Nat.zero_add]
    by_cases hd : d < numChunks reqs.length
    · exact hcov d hd j hj
    · exfalso
      unfold chunkLen at hj
      unfold numChunks at hd
      omega
  have heq : analyzeIssuesBatch call orders reqs = classifyAt call 0 reqs :=
    batchRun_eq_classifyAt call orders reqs.length 0 0 reqs (Nat.le_refl _) hcov'
  refine ⟨?_, ?_, interChunkDelays_closed reqs.length⟩
  · rw [heq, classifyAt_length]
  · intro i h
    rw [heq, classifyAt_getElem? call reqs 0 i h, Nat.zero_add]

/-- Witness for C1 at a concrete two-chunk input whose chunks complete out
of index order and whose sixth call rejects. -/
theorem analyzeIssuesBatch_preserves_length_and_order_witness :
    (∀ k < numChunks witnessReqs.length, ∀ j < chunkLen witnessReqs.length k,
      j ∈ witnessOrders k) ∧
    ((analyzeIssuesBatch witnessCall witnessOrders witnessReqs).length = witnessReqs.length ∧
    (∀ i (h : i < witnessReqs.length),
      (analyzeIssuesBatch witnessCall witnessOrders witnessReqs)[i]? =
        some (settleOne (witnessCall i witnessReqs[i]) witnessReqs[i])) ∧
    interChunkDelays witnessReqs.length = numChunks witnessReqs.length - 1) :=
  ⟨by decide,
    analyzeIssuesBatch_preserves_length_and_order witnessCall witnessOrders witnessReqs
      (by decide)⟩

/-! ### Claim C4 -/

/-- C4: for a chunk of 5 classification requests in which the call for
request #3 rejects while the other four fulfill, the returned sequence
still has 5 entries, entry #3 is the fallback result and the other entries
are the real backend responses; the completion schedule is deliberately
out of index order. -/
theorem batch_failure_isolation :
    analyzeIssuesBatch failThirdCall (fun _ => [4, 2, 0, 1, 3])
        [sampleReq 0, sampleReq 1, sampleReq 2, sampleReq 3, sampleReq 4] =
      [sampleAnalysis 0, sampleAnalysis 1,
        batchFallback (sampleReq 2) "API connection failed",
        sampleAnalysis 3, sampleAnalysis 4] := by
  decide

/-! ### Claim C2 -/

/-- The fallback analysis itself satisfies the response invariant. -/
theorem validateAnalysis_fallback_ok (request : OpenAIIssueAnalysisRequest) (m : String) :
    validateAnalysis (fallbackAnalysisRaw request m) = .ok () := by
  simp [validateAnalysis, fallbackAnalysisRaw, jsLookup, requiredFields, severityTokenOk]

/-- A response accepted by `validateAnalysis` really carries an enumerated
severity token, an in-range numeric confidence and all seven fields. -/
theorem validateAnalysis_ok_semantics (fields : List (String × JsVal))
    (h : validateAnalysis fields = .ok ()) :
    (∃ s, jsLookup fields "severity_level" = some (.str s) ∧
      (["low", "medium", "high", "critical"] : List String).contains s = true) ∧
    (∃ q, jsLookup fields "confidence_score" = some (.num q) ∧ 0 ≤ q ∧ q ≤ 100) ∧
    (∀ f ∈ requiredFields, (jsLookup fields f).isSome = true) := by
  unfold validateAnalysis at h
  by_cases hmiss : ((requiredFields.filter fun f => (jsLookup fields f).isNone).length > 0)
  · rw [if_pos hmiss] at h
    exact absurd h (by simp)
  · rw [if_neg hmiss] at h
    have hforall : ∀ f ∈ requiredFields, (jsLookup fields f).isSome = true := by
      intro f hf
      have hnil : (requiredFields.filter fun f => (jsLookup fields f).isNone) = [] := by
        cases hfe : (requiredFields.filter fun f => (jsLookup fields f).isNone) with
        | nil => rfl
        | cons a l => rw [hfe] at hmiss; simp at hmiss
      have := List.filter_eq_nil_iff.mp hnil f hf
      cases hj : jsLookup fields f with
      | none => rw [hj] at this; simp at this
      | some v => rfl
    cases hb : severityTokenOk (jsLookup fields "severity_level") with
    | false =>
      rw [hb] at h
      simp at h
    | true =>
      rw [hb] at h
      simp only [Bool.not_true, Bool.false_eq_true, if_false] at h
      have hsevex : ∃ s, jsLookup fields "severity_level" = some (.str s) ∧
          (["low", "medium", "high", "critical"] : List String).contains s = true := by
        cases hs : jsLookup fields "severity_level" with
        | none => rw [hs] at hb; simp [severityTokenOk] at hb
        | some v =>
          cases v with
          | str s =>
            refine ⟨s, rfl, ?_⟩
            rw [hs] at hb
            simpa [severityTokenOk] using hb
          | num q => rw [hs] at hb; simp [severityTokenOk] at hb
          | bool b => rw [hs] at hb; simp [severityTokenOk] at hb
          | null => rw [hs] at hb; simp [severityTokenOk] at hb
          | nan => rw [hs] at hb; simp [severityTokenOk] at hb
          | strArr xs => rw [hs] at hb; simp [severityTokenOk] at hb
          | other d => rw [hs] at hb; simp [severityTokenOk] at hb
      refine ⟨hsevex, ?_, hforall⟩
      cases hconf : jsLookup fields "confidence_score" with
      | none => rw [hconf] at h; simp at h
      | some v =>
        cases v with
        | num q =>
          rw [hconf] at h
          simp at h
          exact ⟨q, rfl, h.1, h.2⟩
        | str s => rw [hconf] at h; simp at h
        | bool b => rw [hconf] at h; simp at h
        | null => rw [hconf] at h; simp at h
        | nan => rw [hconf] at h; simp at h
        | strArr xs => rw [hconf] at h; simp at h
        | other d => rw [hconf] at h; simp at h

/-- C2: `analyzeIssue` never raises.  Its result always satisfies the
response invariant; a parsed object passing validation is returned as-is;
every failure cause (validation error, transport error, empty content,
unparseable or non-object content) yields the fallback analysis whose
reasoning embeds the failure cause; the fallback carries
`is_critical = false`, `severity_level = "medium"`, `confidence_score = 0`;
and an accepted response really has the seven fields, an enumerated
severity and an in-range confidence (nothing invalid is coerced). -/
theorem analyzeIssue_never_raises (outcome : BackendOutcome)
    (request : OpenAIIssueAnalysisRequest) :
    validateAnalysis (analyzeIssue outcome request) = .ok () ∧
    (∀ fields, outcome = .parsedObject fields → validateAnalysis fields = .ok () →
      analyzeIssue outcome request = fields) ∧
    (∀ fields e, outcome = .parsedObject fields → validateAnalysis fields = .error e →
      analyzeIssue outcome request = fallbackAnalysisRaw request ("Error: " ++ e)) ∧
    (∀ m, outcome = .transportError m →
      analyzeIssue outcome request = fallbackAnalysisRaw request m) ∧
    (outcome = .emptyContent →
      analyzeIssue outcome request =
        fallbackAnalysisRaw request "Error: No response content from OpenAI") ∧
    (∀ m, outcome = .parseFailure m ∨ outcome = .nonObjectContent m →
      analyzeIssue outcome request = fallbackAnalysisRaw request m) ∧
    (∀ m, jsLookup (fallbackAnalysisRaw request m) "is_critical" = some (.bool false) ∧
      jsLookup (fallbackAnalysisRaw request m) "severity_level" = some (.str "medium") ∧
      jsLookup (fallbackAnalysisRaw request m) "confidence_score" = some (.num 0) ∧
      jsLookup (fallbackAnalysisRaw request m) "reasoning" =
        some (.str ("Failed to analyze with OpenAI: " ++ m ++ ". Manual review required."))) := by
  refine ⟨?_, ?_, ?_, ?_, ?_, ?_, ?_⟩
  · cases outcome with
    | parsedObject fields =>
      cases hv : validateAnalysis fields with
      | ok u =>
        cases u
        simp [analyzeIssue, hv]
      | error e => simp [analyzeIssue, hv, validateAnalysis_fallback_ok]
    | transportError m => simp [analyzeIssue, validateAnalysis_fallback_ok]
    | emptyContent => simp [analyzeIssue, validateAnalysis_fallback_ok]
    | parseFailure m => simp [analyzeIssue, validateAnalysis_fallback_ok]
    | nonObjectContent m => simp [analyzeIssue, validateAnalysis_fallback_ok]
  · intro fields heq hv
    subst heq
    simp [analyzeIssue, hv]
  · intro fields e heq hv
    subst heq
    simp [analyzeIssue, hv]
  · intro m heq
    subst heq
    rfl
  · intro heq
    subst heq
    rfl
  · intro m heq
    rcases heq with heq | heq <;> subst heq <;> rfl
  · intro m
    refine ⟨?_, ?_, ?_, ?_⟩ <;> simp [fallbackAnalysisRaw, jsLookup]

/-- Witness for C2: a parsed response with the out-of-enumeration severity
token `"urgent"` is replaced by the fallback, not coerced. -/
theorem analyzeIssue_never_raises_witness :
    analyzeIssue
        (.parsedObject
          [("issue_id", .num 42), ("is_critical", .bool false),
            ("severity_level", .str "urgent"), ("reasoning", .str "looks bad"),
            ("affected_functionality", .strArr ["render"]),
            ("impact_description", .str "blocks rendering"),
            ("confidence_score", .num 88)]) (sampleReq 0) =
      fallbackAnalysisRaw (sampleReq 0) "Error: Invalid severity_level: urgent" :=
  (analyzeIssue_never_raises
      (.parsedObject
        [("issue_id", .num 42), ("is_critical", .bool false),
          ("severity_level", .str "urgent"), ("reasoning", .str "looks bad"),
          ("affected_functionality", .strArr ["render"]),
          ("impact_description", .str "blocks rendering"),
          ("confidence_score", .num 88)]) (sampleReq 0)).2.2.1 _
    "Invalid severity_level: urgent" rfl rfl

/-! ### Claim C3 -/

/-- C3: the report's `critical_issues` counts the pairs whose analysis is
blocking or has severity `critical`; `high_priority_issues` counts the
pairs with severity `high` and not blocking; and no pair satisfies both
predicates (a blocking high-severity pair counts only as critical). -/
theorem createReport_counts (component : String) (issues : List GitHubIssue)
    (analyses : List AnalysisPair) (summary : AnalysisSummary) (now : String) :
    (createReport component issues analyses summary now).critical_issues =
      ((analyses.filter (fun p => p.analysis.is_critical
        || p.analysis.severity_level == "critical")).length : Int) ∧
    (createReport component issues analyses summary now).high_priority_issues =
      ((analyses.filter (fun p => p.analysis.severity_level == "high"
        && !p.analysis.is_critical)).length : Int) ∧
    (analyses.filter (fun p => (p.analysis.is_critical
      || p.analysis.severity_level == "critical")
      && (p.analysis.severity_level == "high" && !p.analysis.is_critical))).length = 0 := by
  refine ⟨rfl, rfl, ?_⟩
  rw [List.length_eq_zero]
  apply List.filter_eq_nil_iff.mpr
  intro p _
  cases hic : p.analysis.is_critical with
  | true => simp [hic]
  | false =>
    simp only [hic, Bool.false_or, Bool.not_false, Bool.and_true, Bool.and_eq_true,
      beq_iff_eq]
    intro ⟨h1, h2⟩
    rw [h1] at h2
    exact absurd h2 (by decide)

/-! ### Claim C5 -/

/-- C5 counterexample: with one critical paired result and a failing
rollup call, the fallback summary is not the record
(empty, empty, ["manual review recommended"]) the claim describes: its
top-issues list carries the critical title and its common-problems list is
a non-empty fixed message. -/
theorem generateComponentSummary_fallback_counterexample :
    generateComponentSummary "dialog" [criticalDemoPair] .failure ≠
      { most_critical_issues := []
        common_problems := []
        recommended_actions := ["manual review recommended"] } := by
  decide

/-- C5 amended: when the single summary-rollup call fails,
`generateComponentSummary` returns the fallback whose top-issues list is
the titles of the first (at most 3) critical-or-blocking paired results,
whose common-problems list is the single message "Unable to analyze common
problems due to API error", and whose recommended-actions list is the
single action "Manual review of issues recommended due to analysis
failure". -/
theorem generateComponentSummary_fallback (componentName : String)
    (analyses : List AnalysisPair) :
    generateComponentSummary componentName analyses .failure =
      { most_critical_issues :=
          ((analyses.filter (fun a => a.analysis.is_critical
            || a.analysis.severity_level == "critical")).take 3).map
              (fun a => a.github_issue.title)
        common_problems := ["Unable to analyze common problems due to API error"]
        recommended_actions :=
          ["Manual review of issues recommended due to analysis failure"] } := rfl

/-! ### Claim C6 -/

/-- C6: when the issue search returns zero issues, `analyzeComponent`
succeeds with the empty report: zero totals, no issue pairs, and a
single-element recommended-actions list saying the component appears to be
stable. -/
theorem analyzeComponent_zero_issues (env : AnalyzerEnv) (options : AnalyzeOptions)
    (h : env.searchOutcome = .ok []) :
    analyzeComponent env options = .ok (createEmptyReport options.component env.now) ∧
    (createEmptyReport options.component env.now).total_issues = 0 ∧
    (createEmptyReport options.component env.now).critical_issues = 0 ∧
    (createEmptyReport options.component env.now).high_priority_issues = 0 ∧
    (createEmptyReport options.component env.now).issues = [] ∧
    (createEmptyReport options.component env.now).summary.recommended_actions =
      ["No issues found for " ++ options.component ++
        " component - it appears to be stable!"] ∧
    (createEmptyReport options.component env.now).summary.recommended_actions.length = 1 := by
  refine ⟨?_, rfl, rfl, rfl, rfl, rfl, rfl⟩
  unfold analyzeComponent
  rw [h]
  rfl

/-- Witness for C6 at a concrete zero-issue environment. -/
theorem analyzeComponent_zero_issues_witness :
    zeroIssueEnv.searchOutcome = .ok [] ∧
    (analyzeComponent zeroIssueEnv { component := "button" } =
        .ok (createEmptyReport "button" zeroIssueEnv.now) ∧
      (createEmptyReport "button" zeroIssueEnv.now).total_issues = 0 ∧
      (createEmptyReport "button" zeroIssueEnv.now).critical_issues = 0 ∧
      (createEmptyReport "button" zeroIssueEnv.now).high_priority_issues = 0 ∧
      (createEmptyReport "button" zeroIssueEnv.now).issues = [] ∧
      (createEmptyReport "button" zeroIssueEnv.now).summary.recommended_actions =
        ["No issues found for " ++ "button" ++ " component - it appears to be stable!"] ∧
      (createEmptyReport "button" zeroIssueEnv.now).summary.recommended_actions.length = 1) :=
  ⟨rfl, analyzeComponent_zero_issues zeroIssueEnv { component := "button" } rfl⟩

/-! ### Claim C7 -/

/-- C7: the issue search does NOT honor its include-closed option.  The
query actually issued hard-codes `state:open` even when the computed state
is `"all"` (include-closed set), and the search result is entirely
independent of `includeClosedIssues` and of the `state` override. -/
theorem searchComponentIssues_ignores_includeClosed :
    searchQueriesUsed "dialog" "all" = ["repo:shadcn-ui/ui is:issue state:open dialog"] ∧
    stateFor { maxIssues := 30, includeClosedIssues := true, state := none } = "all" ∧
    (∀ (responses : String → List RawSearchItem) (componentName : String)
      (m : Nat) (b b' : Bool) (st st' : Option String),
      searchComponentIssues responses componentName
          { maxIssues := m, includeClosedIssues := b, state := st } =
        searchComponentIssues responses componentName
          { maxIssues := m, includeClosedIssues := b', state := st' }) :=
  ⟨rfl, rfl, fun _ _ _ _ _ _ _ => rfl⟩

/-! ### Claim C8 -/

/-- The active search reduces to one filtered, transformed, truncated
response page: the single query's non-PR items (the seen-set test is
vacuous because the set is still empty while the only filter runs). -/
theorem searchComponentIssues_eq (responses : String → List RawSearchItem)
    (componentName : String) (options : SearchOptions) :
    searchComponentIssues responses componentName options =
      (((responses ("repo:shadcn-ui/ui is:issue state:open " ++ componentName)).filter
        (fun it => !it.pull_request)).map transformIssue).take options.maxIssues := by
  have hfilter : (responses ("repo:shadcn-ui/ui is:issue state:open " ++ componentName)).filter
      (fun it => !it.pull_request && !(([] : List Int).contains it.number)) =
      (responses ("repo:shadcn-ui/ui is:issue state:open " ++ componentName)).filter
      (fun it => !it.pull_request) := by
    apply List.filter_congr
    intro it _
    simp
  unfold searchComponentIssues searchQueriesUsed
  simp only [searchLoop]
  rw [hfilter]
  split <;> simp

/-- C8 counterexample: when the single response page repeats issue number
7, both copies survive — the output has two items with the same
identifier, so duplicates seen within the same call are NOT dropped. -/
theorem searchComponentIssues_duplicates_survive :
    ((searchComponentIssues dupResponses "button" { maxIssues := 50 }).map
      (fun i => i.number)) = [7, 7] ∧
    ¬ (searchComponentIssues dupResponses "button" { maxIssues := 50 }).Pairwise
      (fun a b => a.number ≠ b.number) := by
  decide

/-- C8 amended: the search returns at most max-results items, every
returned item stems from a response item not flagged as a pull request,
and — provided the single response page has pairwise-distinct numbers
among its non-PR items — the returned numbers are pairwise distinct (the
seen-set only dedups across successive queries, and only one query is
issued, so duplicates inside one response are not dropped). -/
theorem searchComponentIssues_bounded_noPR_dedup
    (responses : String → List RawSearchItem) (componentName : String)
    (options : SearchOptions)
    (hdup : ((responses ("repo:shadcn-ui/ui is:issue state:open " ++ componentName)).filter
      (fun it => !it.pull_request)).Pairwise (fun a b => a.number ≠ b.number)) :
    (searchComponentIssues responses componentName options).length ≤ options.maxIssues ∧
    (∀ issue ∈ searchComponentIssues responses componentName options,
      ∃ item ∈ responses ("repo:shadcn-ui/ui is:issue state:open " ++ componentName),
        item.pull_request = false ∧ issue = transformIssue item) ∧
    (searchComponentIssues responses componentName options).Pairwise
      (fun a b => a.number ≠ b.number) := by
  refine ⟨?_, ?_, ?_⟩
  · rw [searchComponentIssues_eq]
    exact List.length_take_le _ _
  · intro issue hmem
    rw [searchComponentIssues_eq] at hmem
    have hmem2 := List.mem_of_mem_take hmem
    obtain ⟨item, hitem, rfl⟩ := List.mem_map.mp hmem2
    have hf := List.mem_filter.mp hitem
    exact ⟨item, hf.1, by simpa using hf.2, rfl⟩
  · rw [searchComponentIssues_eq]
    apply List.Pairwise.sublist (List.take_sublist _ _)
    exact hdup.map transformIssue (fun a b hab => hab)

/-- Witness for C8 (amended) at a concrete page with distinct numbers, a
PR item, and a cap of 2. -/
theorem searchComponentIssues_bounded_noPR_dedup_witness :
    ((cleanResponses "repo:shadcn-ui/ui is:issue state:open button").filter
      (fun it => !it.pull_request)).Pairwise (fun a b => a.number ≠ b.number) ∧
    ((searchComponentIssues cleanResponses "button" { maxIssues := 2 }).length ≤ 2 ∧
    (∀ issue ∈ searchComponentIssues cleanResponses "button" { maxIssues := 2 },
      ∃ item ∈ cleanResponses "repo:shadcn-ui/ui is:issue state:open button",
        item.pull_request = false ∧ issue = transformIssue item) ∧
    (searchComponentIssues cleanResponses "button" { maxIssues := 2 }).Pairwise
      (fun a b => a.number ≠ b.number)) :=
  ⟨by decide,
    searchComponentIssues_bounded_noPR_dedup cleanResponses "button" { maxIssues := 2 }
      (by decide)⟩

/-! ### Claim C10 -/

/-- C10: `getAnalysisStats` is total on every report.  With
`total_issues = 0` it returns all-zero statistics instead of dividing by
zero; with a non-zero total the percentages are the critical and high
counts divided by the total, scaled to 100, and rounded to one decimal
place (`Math.round(x*10)/10`), and the average confidence is the rounded
mean of the stored confidence scores. -/
theorem getAnalysisStats_total (report : ComponentAnalysisReport) :
    (report.total_issues = 0 →
      getAnalysisStats report =
        { criticalPercentage := 0, highPriorityPercentage := 0, avgConfidence := 0 }) ∧
    (report.total_issues ≠ 0 →
      (getAnalysisStats report).criticalPercentage =
        ((jsRound ((report.critical_issues : Rat) * 100 / (report.total_issues : Rat) * 10) : Rat)) / 10 ∧
      (getAnalysisStats report).highPriorityPercentage =
        ((jsRound ((report.high_priority_issues : Rat) * 100 / (report.total_issues : Rat) * 10) : Rat)) / 10 ∧
      (getAnalysisStats report).avgConfidence =
        ((jsRound ((report.issues.foldl (fun sum item => sum + item.analysis.confidence_score) 0)
          / (report.total_issues : Rat) * 10) : Rat)) / 10) := by
  constructor
  · intro h
    unfold getAnalysisStats
    rw [if_pos h]
  · intro h
    unfold getAnalysisStats
    rw [if_neg h]
    refine ⟨?_, ?_, rfl⟩
    · have e1 : (report.critical_issues : Rat) / (report.total_issues : Rat) * 100 * 10 =
          (report.critical_issues : Rat) * 100 / (report.total_issues : Rat) * 10 := by
        ring
      rw [e1]
    · have e2 : (report.high_priority_issues : Rat) / (report.total_issues : Rat) * 100 * 10 =
          (report.high_priority_issues : Rat) * 100 / (report.total_issues : Rat) * 10 := by
        ring
      rw [e2]

/-- Witness for C10: the zero-issue report and a two-issue report. -/
theorem getAnalysisStats_total_witness :
    ((createEmptyReport "button" "2024-05-01T12:00:00.000Z").total_issues = 0 ∧
      getAnalysisStats (createEmptyReport "button" "2024-05-01T12:00:00.000Z") =
        { criticalPercentage := 0, highPriorityPercentage := 0, avgConfidence := 0 }) ∧
    (statsDemoReport.total_issues ≠ 0 ∧
      ((getAnalysisStats statsDemoReport).criticalPercentage =
        ((jsRound ((statsDemoReport.critical_issues : Rat) * 100 / (statsDemoReport.total_issues : Rat) * 10) : Rat)) / 10 ∧
      (getAnalysisStats statsDemoReport).highPriorityPercentage =
        ((jsRound ((statsDemoReport.high_priority_issues : Rat) * 100 / (statsDemoReport.total_issues : Rat) * 10) : Rat)) / 10 ∧
      (getAnalysisStats statsDemoReport).avgConfidence =
        ((jsRound ((statsDemoReport.issues.foldl (fun sum item => sum + item.analysis.confidence_score) 0)
          / (statsDemoReport.total_issues : Rat) * 10) : Rat)) / 10)) :=
  ⟨⟨rfl, (getAnalysisStats_total (createEmptyReport "button" "2024-05-01T12:00:00.000Z")).1 rfl⟩,
    ⟨by decide, (getAnalysisStats_total statsDemoReport).2 (by decide)⟩⟩

/-! ### Claim C9 -/

/-- C9: rendering is pure and idempotent.  For any two render environments
that agree on the two date formatters — but may read entirely different
clocks — the markdown document and the serialized JSON of the same report
are byte-identical; so two serializations of one report value always agree
and the only date in either artifact derives from the stored
`analysis_date`. -/
theorem rendering_pure_of_report (e1 e2 : RenderEnv) (r : ComponentAnalysisReport)
    (hl : e1.localeDate = e2.localeDate) (hi : e1.isoDate = e2.isoDate) :
    generateMarkdownReport e1 r = generateMarkdownReport e2 r ∧
    saveJsonReportContent e1 r = saveJsonReportContent e2 r := by
  obtain ⟨n1, l1, i1⟩ := e1
  obtain ⟨n2, l2, i2⟩ := e2
  have hl' : l1 = l2 := hl
  have hi' : i1 = i2 := hi
  subst hl'
  subst hi'
  exact ⟨rfl, rfl⟩

/-- Witness for C9: the same report rendered under two different clocks. -/
theorem rendering_pure_of_report_witness :
    renderEnvA.localeDate = renderEnvB.localeDate ∧
    renderEnvA.isoDate = renderEnvB.isoDate ∧
    (generateMarkdownReport renderEnvA statsDemoReport =
        generateMarkdownReport renderEnvB statsDemoReport ∧
      saveJsonReportContent renderEnvA statsDemoReport =
        saveJsonReportContent renderEnvB statsDemoReport) :=
  ⟨rfl, rfl, rendering_pure_of_report renderEnvA renderEnvB statsDemoReport rfl rfl⟩

end Shadcn
